import Mathlib

/-!
Verification of the aggregation-pipeline analytics repository
(`complex-movie-aggregation.js` and `airbnb-market-analysis.js`).

The repository declares two MongoDB aggregation pipelines; the stages
($match, $addFields, $unwind, $group, $sortArray/$slice, $facet) are
translated here into a shallow embedding.  Field values that the
pipelines test with `$exists` / coalesce with `$ifNull` are modelled by
`MVal` (absent, explicit null, or a value); numeric BSON values are
modelled by `ℚ`, with `$log10` kept as an abstract parameter since the
pipelines constrain it only through the rationals fed to it.
-/

/-- A BSON field slot: absent (missing key), explicit null, or a value.
`$ifNull` treats `absent` and `vnull` alike; `$exists: true` matches
`vnull` but not `absent`. -/
inductive MVal (α : Type) where
  | absent : MVal α
  | vnull : MVal α
  | val : α → MVal α
deriving DecidableEq, Repr

/-- Extract the value of a present field. -/
def MVal.toOption {α : Type} : MVal α → Option α
  | .val a => some a
  | _ => none

/-- Scalar `$ifNull` semantics: the value when present, otherwise the default. -/
def MVal.orDefault {α : Type} (v : MVal α) (d : α) : α :=
  match v with
  | .val a => a
  | _ => d

/-- Whether the slot holds an actual value (not null, not missing). -/
def MVal.isVal {α : Type} : MVal α → Bool
  | .val _ => true
  | _ => false

/-- Query-predicate `$exists: true`: matches explicit null but not a missing field. -/
def mExists {α : Type} : MVal α → Bool
  | .absent => false
  | _ => true

/-- Query-predicate numeric `$gte`: null or missing fields never satisfy a
numeric comparison in a `$match` stage (type-bracketed matching). -/
def qGte (v : MVal ℚ) (c : ℚ) : Bool :=
  match v with
  | .val x => decide (c ≤ x)
  | _ => false

/-- Query-predicate `$ne: null`: satisfied exactly when the field holds a value.
(A missing field also compares equal to null in MongoDB matching.) -/
def qNeNull {α : Type} (v : MVal α) : Bool :=
  v.isVal

/-- Shorthand for `$ifNull [x, 0]` on a numeric slot. -/
def mOrZero (v : MVal ℚ) : ℚ := v.orDefault 0

/-!  ### Movie documents (sample_mflix.movies as consumed by the pipeline)

Fields the pipeline reads.  `year`, `title`, `genres`, `directors` are
modelled as plain values: the pipeline never branches on their absence
except to drop the document (an absent `genres`/`directors` array is
conflated with `[]`, which the filter also drops; an absent or
out-of-range `year` is likewise dropped by the `$match` range test). -/
structure Movie where
  title : String
  year : ℤ
  runtime : MVal ℚ
  imdbRating : MVal ℚ
  imdbVotes : MVal ℚ
  awardsWins : MVal ℚ
  awardsNominations : MVal ℚ
  metacritic : MVal ℚ
  tomatoesViewerRating : MVal ℚ
  genres : List String
  directors : List String
deriving DecidableEq, Repr

/-- Stage 1 of the movie pipeline (`$match`): year in 1990–2020, rating ≥ 1,
votes ≥ 100, non-empty genres and directors, runtime ≥ 40, with the
`$exists: true` conjuncts of the source. -/
def moviePassesFilter (m : Movie) : Bool :=
  decide (1990 ≤ m.year) && decide (m.year ≤ 2020) &&
  (mExists m.imdbRating && qGte m.imdbRating 1) &&
  (mExists m.imdbVotes && qGte m.imdbVotes 100) &&
  decide (m.genres ≠ []) &&
  decide (m.directors ≠ []) &&
  (mExists m.runtime && qGte m.runtime 40)

/-! ### Aggregation-expression AST for the `weightedScore` field

The `$addFields` expression of stage 2 is translated node-by-node.
`$add` and `$multiply` take an array of operands, as in the source. -/

/-- The four document paths referenced inside `weightedScore`. -/
inductive MField where
  | rating | votes | wins | noms
deriving DecidableEq, Repr

/-- Resolve a referenced path against a movie document. -/
def movieField (m : Movie) : MField → MVal ℚ
  | .rating => m.imdbRating
  | .votes => m.imdbVotes
  | .wins => m.awardsWins
  | .noms => m.awardsNominations

/-- Numeric aggregation expressions used by the movie pipeline. -/
inductive MExpr where
  | const : ℚ → MExpr
  | fld : MField → MExpr
  | addE : List MExpr → MExpr
  | mulE : List MExpr → MExpr
  | divE : MExpr → MExpr → MExpr
  | log10E : MExpr → MExpr
  | ifNullE : MExpr → MExpr → MExpr
deriving Repr

/-- Aggregation `$add`: sum when every operand is a number, null when any
operand is null or refers to a missing field. -/
def mAdd (vs : List (MVal ℚ)) : MVal ℚ :=
  if vs.all MVal.isVal then .val ((vs.filterMap MVal.toOption).sum) else .vnull

/-- Aggregation `$multiply`: product when every operand is a number, null
otherwise. -/
def mMul (vs : List (MVal ℚ)) : MVal ℚ :=
  if vs.all MVal.isVal then .val ((vs.filterMap MVal.toOption).prod) else .vnull

/-- Aggregation `$divide`.  MongoDB raises a divide-by-zero error for a zero
divisor; the modelled pipelines only divide by the non-zero constants 2 and
30-style denominators, so the error case is represented by the non-value. -/
def mDiv (a b : MVal ℚ) : MVal ℚ :=
  match a, b with
  | .val x, .val y => if y = 0 then .vnull else .val (x / y)
  | _, _ => .vnull

/-- Aggregation `$log10`, with the real logarithm kept abstract as `lg`.
MongoDB raises an error on a non-positive argument; the claim about the
movie pipeline shows its only `$log10` argument is ≥ 101 after the filter. -/
def mLog10 (lg : ℚ → ℚ) : MVal ℚ → MVal ℚ
  | .val q => .val (lg q)
  | _ => .vnull

mutual

/-- Evaluate a movie aggregation expression against a document. -/
def evalM (lg : ℚ → ℚ) (m : Movie) : MExpr → MVal ℚ
  | .const q => .val q
  | .fld f => movieField m f
  | .addE args => mAdd (evalL lg m args)
  | .mulE args => mMul (evalL lg m args)
  | .divE a b => mDiv (evalM lg m a) (evalM lg m b)
  | .log10E a => mLog10 lg (evalM lg m a)
  | .ifNullE a b =>
    match evalM lg m a with
    | .val q => .val q
    | _ => evalM lg m b

/-- Evaluate a list of operands left to right. -/
def evalL (lg : ℚ → ℚ) (m : Movie) : List MExpr → List (MVal ℚ)
  | [] => []
  | e :: es => evalM lg m e :: evalL lg m es

end

/-- The argument fed to `$log10` inside `weightedScore`:
`{$add: [{$ifNull: ["$imdb.votes", 0]}, 1]}`. -/
def log10ArgExpr : MExpr :=
  .addE [.ifNullE (.fld .votes) (.const 0), .const 1]

/-- Stage 2 `weightedScore` expression, translated from the source:
rating×10 + log10(votes+1)/2 + wins×2 + nominations, every path wrapped in
`$ifNull [·, 0]`. -/
def weightedScoreExpr : MExpr :=
  .addE
    [ .mulE [.ifNullE (.fld .rating) (.const 0), .const 10],
      .divE (.log10E log10ArgExpr) (.const 2),
      .mulE [.ifNullE (.fld .wins) (.const 0), .const 2],
      .ifNullE (.fld .noms) (.const 0) ]

/-- Stage 2 `decade` expression:
`$concat [$toString ($subtract [year, $mod [year, 10]]), "s"]`. -/
def decadeOf (year : ℤ) : String := toString (year - year % 10) ++ "s"

/-- Truthiness of `$ifNull [x, false]` as used by `$cond` in stage 2:
a present non-zero number is truthy; null, missing and 0 are falsy. -/
def condTruthy (v : MVal ℚ) : Bool :=
  match v with
  | .val q => decide (q ≠ 0)
  | _ => false

/-- A movie document after the stage 2 `$addFields`. -/
structure DMovie extends Movie where
  decade : String
  weightedScore : MVal ℚ
  hasMetacritic : ℚ
  hasTomatoes : ℚ
deriving DecidableEq, Repr

/-- Stage 2 of the movie pipeline (`$addFields`). -/
def deriveMovie (lg : ℚ → ℚ) (m : Movie) : DMovie :=
  { m with
    decade := decadeOf m.year
    weightedScore := evalM lg m weightedScoreExpr
    hasMetacritic := if condTruthy m.metacritic then 1 else 0
    hasTomatoes := if condTruthy m.tomatoesViewerRating then 1 else 0 }

/-- C1: for every movie document passing the filter stage, the derive stage
computes `weightedScore = rating×10 + log10(votes+1)/2 + wins×2 + nominations`
with each of rating, votes, wins, nominations taken as 0 when absent or null,
and computes `decade` as the year minus (year mod 10) rendered as that number
followed by the letter `s`. -/
theorem claim_C1_weightedScore_decade :
    ∀ (lg : ℚ → ℚ) (m : Movie), moviePassesFilter m = true →
      (deriveMovie lg m).weightedScore =
        .val (mOrZero m.imdbRating * 10 + lg (mOrZero m.imdbVotes + 1) / 2
              + mOrZero m.awardsWins * 2 + mOrZero m.awardsNominations)
      ∧ (deriveMovie lg m).decade = toString (m.year - m.year % 10) ++ "s" := by
  intro lg m _
  refine ⟨?_, rfl⟩
  cases hr : m.imdbRating <;> cases hv : m.imdbVotes <;>
    cases hw : m.awardsWins <;> cases hn : m.awardsNominations <;>
      simp [deriveMovie, evalM, evalL, weightedScoreExpr, log10ArgExpr,
        mAdd, mMul, mDiv, mLog10, movieField, mOrZero, MVal.orDefault,
        MVal.isVal, MVal.toOption, hr, hv, hw, hn] <;> ring

/-- A concrete movie passing the filter, used to witness the claims. -/
def movieWitness : Movie :=
  { title := "T", year := 2003, runtime := .val 120, imdbRating := .val 8,
    imdbVotes := .val 1000, awardsWins := .absent, awardsNominations := .vnull,
    metacritic := .absent, tomatoesViewerRating := .absent,
    genres := ["Drama"], directors := ["A"] }

/-- Witness for C1 at a concrete document and a concrete log10 stand-in. -/
theorem claim_C1_witness :
    (deriveMovie (fun _ => 3) movieWitness).weightedScore =
      .val (8 * 10 + (3 : ℚ) / 2 + 0 * 2 + 0)
    ∧ (deriveMovie (fun _ => 3) movieWitness).decade = "2000s" := by
  have h := claim_C1_weightedScore_decade (fun _ => 3) movieWitness (by decide)
  refine ⟨?_, ?_⟩
  · have h1 := h.1
    simpa [movieWitness, mOrZero, MVal.orDefault] using h1
  · have h2 := h.2
    simpa [movieWitness] using h2

/-- C10: under the movie filter (votes ≥ 100), the argument of `$log10`
inside `weightedScore` evaluates to a value that is at least 101, hence
positive — the undefined `log10(0)` policy never arises on reachable input. -/
theorem claim_C10_log10_argument_positive :
    ∀ (lg : ℚ → ℚ) (m : Movie), moviePassesFilter m = true →
      ∃ q : ℚ, evalM lg m log10ArgExpr = .val q ∧ 101 ≤ q ∧ 0 < q := by
  intro lg m hm
  have hv : qGte m.imdbVotes 100 = true := by
    simp only [moviePassesFilter, Bool.and_eq_true] at hm
    exact hm.1.1.1.2.2
  rcases hvv : m.imdbVotes with _ | _ | v
  · rw [hvv] at hv; simp [qGte] at hv
  · rw [hvv] at hv; simp [qGte] at hv
  · have hge : (100 : ℚ) ≤ v := by
      rw [hvv] at hv
      simpa [qGte] using hv
    refine ⟨v + 1, ?_, by linarith, by linarith⟩
    simp [evalM, evalL, log10ArgExpr, mAdd, movieField, hvv,
      MVal.isVal, MVal.toOption]

/-- Witness for C10: the log10 argument at the concrete witness movie. -/
theorem claim_C10_witness :
    ∃ q : ℚ, evalM (fun _ => 3) movieWitness log10ArgExpr = .val q
      ∧ 101 ≤ q ∧ 0 < q :=
  claim_C10_log10_argument_positive (fun _ => 3) movieWitness (by decide)

/-! ### Top-N retention (`$sortArray` + `$slice`)

The sorting engine itself is MongoDB's and is not part of the repository;
the spec fixes its tie-break: stable, by original relative order.  It is
modelled by a total order on index-tagged records — descending on the
declared sort key, ascending on the original position — so that the
retained prefix is exactly the spec's stable top-N. -/

/-- Modelled from the spec: the comparison used by `$sortArray` (the MongoDB
engine is not in the repository; the spec prescribes a stable sort).  Record
`p` comes before `q` when its key is strictly higher, or the keys are equal
and `p` appeared earlier in the input. -/
def sortKeyRel {α K : Type} [LinearOrder K] (key : α → K) (p q : ℕ × α) : Prop :=
  key q.2 < key p.2 ∨ (key p.2 = key q.2 ∧ p.1 ≤ q.1)

instance sortKeyRel.decRel {α K : Type} [LinearOrder K] (key : α → K) :
    DecidableRel (sortKeyRel key) := fun p q => by
  unfold sortKeyRel; infer_instance

instance sortKeyRel.total {α K : Type} [LinearOrder K] (key : α → K) :
    IsTotal (ℕ × α) (sortKeyRel key) := by
  constructor
  intro p q
  rcases lt_trichotomy (key p.2) (key q.2) with h | h | h
  · exact Or.inr (Or.inl h)
  · rcases le_total p.1 q.1 with hle | hle
    · exact Or.inl (Or.inr ⟨h, hle⟩)
    · exact Or.inr (Or.inr ⟨h.symm, hle⟩)
  · exact Or.inl (Or.inl h)

instance sortKeyRel.trans {α K : Type} [LinearOrder K] (key : α → K) :
    IsTrans (ℕ × α) (sortKeyRel key) := by
  constructor
  rintro p q r (h₁ | ⟨h₁, h₁i⟩) (h₂ | ⟨h₂, h₂i⟩)
  · exact Or.inl (h₂.trans h₁)
  · exact Or.inl (h₂ ▸ h₁)
  · exact Or.inl (h₁ ▸ h₂)
  · exact Or.inr ⟨h₁.trans h₂, h₁i.trans h₂i⟩

/-- Modelled from the spec: stable `$sortArray` (descending by `key`) over
index-tagged records. -/
def sortPairs {α K : Type} [LinearOrder K] (key : α → K) (xs : List α) :
    List (ℕ × α) :=
  List.insertionSort (sortKeyRel key) xs.enum

/-- The index-tagged records retained by `$sortArray` + `$slice n`. -/
def topNPairs {α K : Type} [LinearOrder K] (n : ℕ) (key : α → K)
    (xs : List α) : List (ℕ × α) :=
  (sortPairs key xs).take n

/-- The records retained by `$sortArray` (descending by `key`) + `$slice n`. -/
def topN {α K : Type} [LinearOrder K] (n : ℕ) (key : α → K) (xs : List α) :
    List α :=
  (topNPairs n key xs).map Prod.snd

/-- Record `q` strictly beats record `p`: higher sort key, or equal key with
an earlier original position. -/
def beats {α K : Type} [LinearOrder K] (key : α → K) (q p : ℕ × α) : Bool :=
  decide (key p.2 < key q.2) || (decide (key q.2 = key p.2) && decide (q.1 < p.1))

theorem beats_self_eq_false {α K : Type} [LinearOrder K] (key : α → K)
    (p : ℕ × α) : beats key p p = false := by
  simp [beats]

theorem beats_eq_false_of_rel {α K : Type} [LinearOrder K] (key : α → K)
    {x a : ℕ × α} (h : sortKeyRel key x a) : beats key a x = false := by
  rcases h with h | ⟨heq, hle⟩
  · simp only [beats, Bool.or_eq_false_iff, Bool.and_eq_false_iff,
      decide_eq_false_iff_not]
    exact ⟨not_lt.mpr h.le, Or.inl (ne_of_lt h)⟩
  · simp only [beats, Bool.or_eq_false_iff, Bool.and_eq_false_iff,
      decide_eq_false_iff_not]
    exact ⟨not_lt.mpr heq.ge, Or.inr (not_lt.mpr hle)⟩

theorem beats_eq_true_of_rel_ne {α K : Type} [LinearOrder K] (key : α → K)
    {x b : ℕ × α} (h : sortKeyRel key x b) (hne : x.1 ≠ b.1) :
    beats key x b = true := by
  rcases h with h | ⟨heq, hle⟩
  · simp [beats, h]
  · simp [beats, heq, lt_of_le_of_ne hle hne]

/-- In a list sorted by the stable descending comparison, with pairwise
distinct original positions, membership in the first `n` entries is exactly
having fewer than `n` strict beaters. -/
theorem mem_take_sorted_iff {α K : Type} [LinearOrder K] (key : α → K) :
    ∀ (l : List (ℕ × α)), l.Sorted (sortKeyRel key) →
      (l.map Prod.fst).Nodup →
      ∀ b ∈ l, ∀ n : ℕ,
        b ∈ l.take n ↔ l.countP (fun q => beats key q b) < n := by
  intro l
  induction l with
  | nil => intro _ _ b hb; cases hb
  | cons x t ih =>
    intro hs hnd b hb n
    have hrel : ∀ a ∈ t, sortKeyRel key x a := (List.sorted_cons.mp hs).1
    have hst : t.Sorted (sortKeyRel key) := (List.sorted_cons.mp hs).2
    have hx1 : x.1 ∉ t.map Prod.fst := by
      have := hnd
      simp only [List.map_cons, List.nodup_cons] at this
      exact this.1
    have hndt : (t.map Prod.fst).Nodup := by
      have := hnd
      simp only [List.map_cons, List.nodup_cons] at this
      exact this.2
    rcases List.mem_cons.mp hb with rfl | hbt
    · have hcount : (b :: t).countP (fun q => beats key q b) = 0 := by
        rw [List.countP_cons]
        have h0 : t.countP (fun q => beats key q b) = 0 :=
          List.countP_eq_zero.mpr fun a ha => by
            simp [beats_eq_false_of_rel key (hrel a ha)]
        simp [h0, beats_self_eq_false]
      rw [hcount]
      cases n with
      | zero => simp
      | succ m => simp [List.take_succ_cons]
    · have hbx : b ≠ x := by
        rintro rfl
        exact hx1 (List.mem_map_of_mem Prod.fst hbt)
      have hne1 : x.1 ≠ b.1 := by
        intro h
        exact hx1 (h ▸ List.mem_map_of_mem Prod.fst hbt)
      have hxb : beats key x b = true :=
        beats_eq_true_of_rel_ne key (hrel b hbt) hne1
      have hcount : (x :: t).countP (fun q => beats key q b)
          = t.countP (fun q => beats key q b) + 1 := by
        rw [List.countP_cons]
        simp [hxb]
      rw [hcount]
      cases n with
      | zero => simp
      | succ m =>
        rw [List.take_succ_cons, List.mem_cons]
        simp only [hbx, false_or]
        rw [ih hst hndt b hbt m]
        omega

/-- Membership characterisation for the retained top-N records: an
index-tagged record of the input is retained exactly when fewer than `n`
records strictly beat it (higher key, or equal key and earlier position). -/
theorem topNPairs_mem_iff {α K : Type} [LinearOrder K] (n : ℕ) (key : α → K)
    (xs : List α) (b : ℕ × α) (hb : b ∈ xs.enum) :
    b ∈ topNPairs n key xs ↔
      xs.enum.countP (fun q => beats key q b) < n := by
  have hperm : List.Perm (List.insertionSort (sortKeyRel key) xs.enum) xs.enum :=
    List.perm_insertionSort _ _
  have hsorted : (sortPairs key xs).Sorted (sortKeyRel key) :=
    List.sorted_insertionSort _ _
  have hnd : ((sortPairs key xs).map Prod.fst).Nodup := by
    have h1 : List.Perm ((sortPairs key xs).map Prod.fst) (xs.enum.map Prod.fst) :=
      hperm.map Prod.fst
    exact h1.nodup_iff.mpr (List.nodup_enum_map_fst xs)
  have hmem : b ∈ sortPairs key xs := hperm.mem_iff.mpr hb
  have h := mem_take_sorted_iff key (sortPairs key xs) hsorted hnd b hmem n
  rw [topNPairs, h]
  unfold sortPairs
  rw [hperm.countP_eq]

/-- The retained list never exceeds `n` records. -/
theorem topN_length_le {α K : Type} [LinearOrder K] (n : ℕ) (key : α → K)
    (xs : List α) : (topN n key xs).length ≤ n := by
  simp only [topN, topNPairs, List.length_map]
  exact (List.length_take_le n _)

/-! ### Stage 5/7 pushed sub-documents and the stage 6/8 top-N slices -/

/-- The sub-document pushed per movie by the stage 5 `$group` (`movies` array). -/
structure MoviePush where
  title : String
  year : ℤ
  rating : MVal ℚ
  votes : MVal ℚ
  score : MVal ℚ
deriving DecidableEq, Repr

/-- The sub-document pushed per director by the stage 7 `$group`
(`topDirectors` array). -/
structure DirectorEntry where
  director : String
  movieCount : MVal ℚ
  avgRating : MVal ℚ
  totalAwards : MVal ℚ
  topMovies : List MoviePush
deriving DecidableEq, Repr

/-- Sort key of a possibly-null numeric value: MongoDB orders null and
missing before all numbers. -/
def mSortKey (v : MVal ℚ) : Lex (ℕ × ℚ) :=
  toLex (match v with
  | .val q => (1, q)
  | _ => (0, 0))

/-- Stage 6 sort key: `sortBy: { score: -1 }`. -/
def movieScoreKey (m : MoviePush) : Lex (ℕ × ℚ) := mSortKey m.score

/-- Stage 8 sort key: `sortBy: { movieCount: -1, avgRating: -1 }`. -/
def directorKey (d : DirectorEntry) : Lex (Lex (ℕ × ℚ) × Lex (ℕ × ℚ)) :=
  toLex (mSortKey d.movieCount, mSortKey d.avgRating)

/-- Stage 6 of the movie pipeline: `$slice [$sortArray (movies, score: -1), 3]`. -/
def sortSliceMovies (ms : List MoviePush) : List MoviePush :=
  topN 3 movieScoreKey ms

/-- Stage 8 of the movie pipeline:
`$slice [$sortArray (topDirectors, movieCount: -1, avgRating: -1), 5]`. -/
def sortSliceDirectors (ds : List DirectorEntry) : List DirectorEntry :=
  topN 5 directorKey ds

/-- C2: the stage 6 retention keeps at most 3 movies per
(genre, decade, director) group and the stage 8 retention keeps at most 5
directors per (genre, decade) group; in both cases the retained records are
exactly those index-tagged members with fewer than n strict beaters, where a
record beats another when its declared sort key (score descending for movies;
movieCount then avgRating, both descending, for directors) is strictly
higher, or the keys are equal and it appeared earlier in the input (stable
tie-break). -/
theorem claim_C2_topN_retention :
    ∀ (ms : List MoviePush) (ds : List DirectorEntry),
      (sortSliceMovies ms).length ≤ 3
      ∧ (sortSliceDirectors ds).length ≤ 5
      ∧ sortSliceMovies ms = (topNPairs 3 movieScoreKey ms).map Prod.snd
      ∧ sortSliceDirectors ds = (topNPairs 5 directorKey ds).map Prod.snd
      ∧ (∀ p ∈ ms.enum, (p ∈ topNPairs 3 movieScoreKey ms ↔
          ms.enum.countP (fun q => beats movieScoreKey q p) < 3))
      ∧ (∀ p ∈ ds.enum, (p ∈ topNPairs 5 directorKey ds ↔
          ds.enum.countP (fun q => beats directorKey q p) < 5)) := by
  intro ms ds
  refine ⟨topN_length_le 3 movieScoreKey ms, topN_length_le 5 directorKey ds,
    rfl, rfl, ?_, ?_⟩
  · intro p hp
    exact topNPairs_mem_iff 3 movieScoreKey ms p hp
  · intro p hp
    exact topNPairs_mem_iff 5 directorKey ds p hp

/-- Witness movies with duplicate scores: the three 90s tie and the earliest
two of them are retained together with the 95. -/
def pushW (t : String) (s : ℚ) : MoviePush :=
  { title := t, year := 2000, rating := .val 7, votes := .val 500, score := .val s }

/-- Concrete witness list containing duplicate scores. -/
def msWitness : List MoviePush :=
  [pushW "a" 90, pushW "b" 95, pushW "c" 90, pushW "d" 90]

/-- Witness for C2: on a dataset with duplicate scores, the record at
position 0 (score 90) is retained, the equal-scoring record at position 3 is
not, and at most 3 records are kept. -/
theorem claim_C2_witness :
    ((0, pushW "a" 90) ∈ topNPairs 3 movieScoreKey msWitness)
    ∧ ¬ ((3, pushW "d" 90) ∈ topNPairs 3 movieScoreKey msWitness)
    ∧ (sortSliceMovies msWitness).length ≤ 3 := by
  have h := claim_C2_topN_retention msWitness []
  refine ⟨?_, ?_, h.1⟩
  · exact (h.2.2.2.2.1 (0, pushW "a" 90) (by decide)).mpr (by decide)
  · intro hmem
    exact absurd ((h.2.2.2.2.1 (3, pushW "d" 90) (by decide)).mp hmem) (by decide)

/-! ### Expansion stages 3–4 of the movie pipeline (`$unwind`)

A plain `$unwind` (no `preserveNullAndEmptyArrays`) emits one document per
array element, rebinding the field to the element, and drops documents whose
array is empty (or missing, conflated with `[]` here as in the filter). -/

/-- A movie document after `$unwind: "$genres"`. -/
structure UMovieG where
  title : String
  year : ℤ
  runtime : MVal ℚ
  imdbRating : MVal ℚ
  imdbVotes : MVal ℚ
  awardsWins : MVal ℚ
  awardsNominations : MVal ℚ
  metacritic : MVal ℚ
  tomatoesViewerRating : MVal ℚ
  decade : String
  weightedScore : MVal ℚ
  hasMetacritic : ℚ
  hasTomatoes : ℚ
  genres : String
  directors : List String
deriving DecidableEq, Repr

/-- A movie document after the further `$unwind: "$directors"`. -/
structure UMovieGD where
  title : String
  year : ℤ
  runtime : MVal ℚ
  imdbRating : MVal ℚ
  imdbVotes : MVal ℚ
  awardsWins : MVal ℚ
  awardsNominations : MVal ℚ
  metacritic : MVal ℚ
  tomatoesViewerRating : MVal ℚ
  decade : String
  weightedScore : MVal ℚ
  hasMetacritic : ℚ
  hasTomatoes : ℚ
  genres : String
  directors : String
deriving DecidableEq, Repr

/-- Stage 3 of the movie pipeline: `$unwind: "$genres"`. -/
def unwindGenres (d : DMovie) : List UMovieG :=
  d.genres.map (fun g =>
    { title := d.title, year := d.year, runtime := d.runtime,
      imdbRating := d.imdbRating, imdbVotes := d.imdbVotes,
      awardsWins := d.awardsWins, awardsNominations := d.awardsNominations,
      metacritic := d.metacritic, tomatoesViewerRating := d.tomatoesViewerRating,
      decade := d.decade, weightedScore := d.weightedScore,
      hasMetacritic := d.hasMetacritic, hasTomatoes := d.hasTomatoes,
      genres := g, directors := d.directors })

/-- Stage 4 of the movie pipeline: `$unwind: "$directors"`. -/
def unwindDirectors (d : UMovieG) : List UMovieGD :=
  d.directors.map (fun dir =>
    { title := d.title, year := d.year, runtime := d.runtime,
      imdbRating := d.imdbRating, imdbVotes := d.imdbVotes,
      awardsWins := d.awardsWins, awardsNominations := d.awardsNominations,
      metacritic := d.metacritic, tomatoesViewerRating := d.tomatoesViewerRating,
      decade := d.decade, weightedScore := d.weightedScore,
      hasMetacritic := d.hasMetacritic, hasTomatoes := d.hasTomatoes,
      genres := d.genres, directors := dir })

/-! ### Grouping (`$group`)

Modelled from the spec: the grouping engine is MongoDB's and is not in the
repository; per the spec it folds the input one document at a time into
per-group member lists (group identity computed once per record, members in
input order, groups in order of first appearance). -/

/-- Fold one keyed document into the running group list. -/
def addToGroups {α κ : Type} [DecidableEq κ] (k : κ) (d : α) :
    List (κ × List α) → List (κ × List α)
  | [] => [(k, [d])]
  | (k', ms) :: rest =>
    if k = k' then (k', ms ++ [d]) :: rest
    else (k', ms) :: addToGroups k d rest

/-- Modelled from the spec: `$group` membership — fold every document into
the group of its key. -/
def groupBy {α κ : Type} [DecidableEq κ] (key : α → κ) (docs : List α) :
    List (κ × List α) :=
  docs.foldl (fun acc d => addToGroups (key d) d acc) []

theorem addToGroups_keys {α κ : Type} [DecidableEq κ] (k0 : κ) (d : α) :
    ∀ acc : List (κ × List α),
      (addToGroups k0 d acc).map Prod.fst =
        if k0 ∈ acc.map Prod.fst then acc.map Prod.fst
        else acc.map Prod.fst ++ [k0] := by
  intro acc
  induction acc with
  | nil => simp [addToGroups]
  | cons p rest ih =>
    obtain ⟨k', ms⟩ := p
    by_cases hk : k0 = k'
    · subst hk
      simp [addToGroups]
    · simp only [addToGroups, if_neg hk, List.map_cons]
      rw [ih]
      by_cases hmem : k0 ∈ rest.map Prod.fst <;>
        simp [hmem, List.mem_cons, hk]

theorem addToGroups_keys_nodup {α κ : Type} [DecidableEq κ] (k0 : κ) (d : α)
    (acc : List (κ × List α)) (hnd : (acc.map Prod.fst).Nodup) :
    ((addToGroups k0 d acc).map Prod.fst).Nodup := by
  rw [addToGroups_keys]
  by_cases hmem : k0 ∈ acc.map Prod.fst
  · simpa [hmem] using hnd
  · simp [hmem, List.nodup_append, hnd]

theorem mem_addToGroups_spec {α κ : Type} [DecidableEq κ] (k0 : κ) (d : α) :
    ∀ (acc : List (κ × List α)), (acc.map Prod.fst).Nodup →
      ∀ p ∈ addToGroups k0 d acc,
        (p.1 ≠ k0 ∧ p ∈ acc) ∨
        (p.1 = k0 ∧ ((k0 ∉ acc.map Prod.fst ∧ p.2 = [d]) ∨
          (∃ ms, (k0, ms) ∈ acc ∧ p.2 = ms ++ [d]))) := by
  intro acc
  induction acc with
  | nil =>
    intro _ p hp
    simp only [addToGroups, List.mem_singleton] at hp
    subst hp
    exact Or.inr ⟨rfl, Or.inl ⟨by simp, rfl⟩⟩
  | cons q rest ih =>
    obtain ⟨k', ms⟩ := q
    intro hnd p hp
    have hk' : k' ∉ rest.map Prod.fst := by
      simp only [List.map_cons, List.nodup_cons] at hnd
      exact hnd.1
    have hndr : (rest.map Prod.fst).Nodup := by
      simp only [List.map_cons, List.nodup_cons] at hnd
      exact hnd.2
    by_cases hk : k0 = k'
    · subst hk
      simp only [addToGroups, if_pos rfl] at hp
      rcases List.mem_cons.mp hp with rfl | hpr
      · exact Or.inr ⟨rfl, Or.inr ⟨ms, List.mem_cons_self _ _, rfl⟩⟩
      · refine Or.inl ⟨?_, List.mem_cons_of_mem _ hpr⟩
        intro h
        exact hk' (h ▸ List.mem_map_of_mem Prod.fst hpr)
    · simp only [addToGroups, if_neg hk] at hp
      rcases List.mem_cons.mp hp with rfl | hpr
      · exact Or.inl ⟨fun h => hk h.symm, List.mem_cons_self _ _⟩
      · rcases ih hndr p hpr with ⟨hne, hmem⟩ | ⟨heq, hcase⟩
        · exact Or.inl ⟨hne, List.mem_cons_of_mem _ hmem⟩
        · rcases hcase with ⟨hnot, hp2⟩ | ⟨ms', hmem', hp2⟩
          · refine Or.inr ⟨heq, Or.inl ⟨?_, hp2⟩⟩
            simp only [List.map_cons, List.mem_cons]
            rintro (h | h)
            · exact hk h
            · exact hnot h
          · exact Or.inr ⟨heq, Or.inr ⟨ms', List.mem_cons_of_mem _ hmem', hp2⟩⟩

theorem groupBy_members_aux {α κ : Type} [DecidableEq κ] (key : α → κ) :
    ∀ (docs pref : List α) (acc : List (κ × List α)),
      (acc.map Prod.fst).Nodup →
      (∀ p ∈ acc, p.2 = pref.filter (fun x => decide (key x = p.1))) →
      (∀ k : κ, k ∈ acc.map Prod.fst ↔ k ∈ pref.map key) →
      ∀ p ∈ docs.foldl (fun a x => addToGroups (key x) x a) acc,
        p.2 = (pref ++ docs).filter (fun x => decide (key x = p.1)) := by
  intro docs
  induction docs with
  | nil =>
    intro pref acc _ h1 _ p hp
    simpa using h1 p hp
  | cons d ds ih =>
    intro pref acc hnd h1 h2 p hp
    rw [List.foldl_cons] at hp
    have hnd' := addToGroups_keys_nodup (key d) d acc hnd
    have h1' : ∀ q ∈ addToGroups (key d) d acc,
        q.2 = (pref ++ [d]).filter (fun x => decide (key x = q.1)) := by
      intro q hq
      rcases mem_addToGroups_spec (key d) d acc hnd q hq with
        ⟨hne, hmem⟩ | ⟨heq, hcase⟩
      · rw [h1 q hmem, List.filter_append]
        have hd : [d].filter (fun x => decide (key x = q.1)) = [] := by
          simp [List.filter, Ne.symm hne]
        rw [hd, List.append_nil]
      · rcases hcase with ⟨hnot, hq2⟩ | ⟨ms, hmem, hq2⟩
        · have hpref : pref.filter (fun x => decide (key x = q.1)) = [] := by
            rw [List.filter_eq_nil_iff]
            intro x hx
            simp only [decide_eq_true_eq]
            intro hxk
            have hkx := (h2 (key x)).mpr (List.mem_map_of_mem key hx)
            rw [hxk, heq] at hkx
            exact hnot hkx
          rw [hq2, List.filter_append, hpref]
          simp [List.filter, heq]
        · have hms : ms = pref.filter (fun x => decide (key x = key d)) :=
            h1 (key d, ms) hmem
          rw [hq2, hms, List.filter_append]
          simp [List.filter, heq]
    have h2' : ∀ k : κ, k ∈ (addToGroups (key d) d acc).map Prod.fst ↔
        k ∈ (pref ++ [d]).map key := by
      intro k
      rw [addToGroups_keys]
      by_cases hmem : key d ∈ acc.map Prod.fst
      · rw [if_pos hmem]
        have hdp : key d ∈ pref.map key := (h2 _).mp hmem
        simp only [List.map_append, List.mem_append, List.map_cons,
          List.map_nil, List.mem_singleton, h2 k]
        constructor
        · exact fun h => Or.inl h
        · rintro (h | rfl)
          · exact h
          · exact hdp
      · rw [if_neg hmem]
        simp [List.mem_append, h2 k]
    have hres := ih (pref ++ [d]) (addToGroups (key d) d acc) hnd' h1' h2' p hp
    simpa [List.append_assoc] using hres

/-- Each group produced by `groupBy` holds exactly the input records whose
key equals the group key, in input order. -/
theorem groupBy_members {α κ : Type} [DecidableEq κ] (key : α → κ)
    (docs : List α) :
    ∀ p ∈ groupBy key docs,
      p.2 = docs.filter (fun x => decide (key x = p.1)) := by
  intro p hp
  have := groupBy_members_aux key docs [] [] (by simp) (by simp) (by simp) p hp
  simpa using this

/-! ### Accumulators

`$sum` ignores non-numeric values (0 when none); `$avg`, `$min`, `$max`
ignore null/missing contributions and yield null when every contribution is
null or missing. -/

/-- The `$sum: 1` counting accumulator. -/
def sumOne {α : Type} (ms : List α) : MVal ℚ :=
  .val ((ms.map (fun _ => (1 : ℚ))).sum)

/-- The `$sum` accumulator over possibly-absent values. -/
def sumAcc (vs : List (MVal ℚ)) : MVal ℚ :=
  .val ((vs.filterMap MVal.toOption).sum)

/-- The `$avg` accumulator: mean of the non-absent contributions, null when
there are none (never a divide-by-zero). -/
def avgAcc (vs : List (MVal ℚ)) : MVal ℚ :=
  let ns := vs.filterMap MVal.toOption
  if ns.isEmpty then .vnull else .val (ns.sum / ns.length)

/-- The `$max` accumulator: greatest non-absent contribution, null when none. -/
def maxAcc (vs : List (MVal ℚ)) : MVal ℚ :=
  match (vs.filterMap MVal.toOption).max? with
  | some m => .val m
  | none => .vnull

/-- The `$min` accumulator: least non-absent contribution, null when none. -/
def minAcc (vs : List (MVal ℚ)) : MVal ℚ :=
  match (vs.filterMap MVal.toOption).min? with
  | some m => .val m
  | none => .vnull

theorem sumOne_eq_length {α : Type} (ms : List α) :
    sumOne ms = .val (ms.length : ℚ) := by
  unfold sumOne
  congr 1
  induction ms with
  | nil => simp
  | cons x t ih => simp [ih]; ring

/-! ### Stage 5 of the movie pipeline (`$group` by genre, decade, director) -/

/-- The stage 5 group identity: `{genre: "$genres", decade: "$decade",
director: "$directors"}` (paths already unwound to scalars). -/
def movieGroupKey (d : UMovieGD) : String × String × String :=
  (d.genres, d.decade, d.directors)

/-- One stage 5 output row. -/
structure MovieGroupRow where
  genre : String
  decade : String
  director : String
  movieCount : MVal ℚ
  avgRating : MVal ℚ
  avgVotes : MVal ℚ
  avgWeightedScore : MVal ℚ
  avgRuntime : MVal ℚ
  totalAwards : MVal ℚ
  topMovie : MVal ℚ
  metacriticCount : MVal ℚ
  tomatoesCount : MVal ℚ
  movies : List MoviePush
deriving DecidableEq, Repr

/-- Accumulator outputs of one stage 5 group. -/
def movieGroupRowOf (k : String × String × String) (ms : List UMovieGD) :
    MovieGroupRow :=
  { genre := k.1, decade := k.2.1, director := k.2.2,
    movieCount := sumOne ms,
    avgRating := avgAcc (ms.map (fun d => d.imdbRating)),
    avgVotes := avgAcc (ms.map (fun d => d.imdbVotes)),
    avgWeightedScore := avgAcc (ms.map (fun d => d.weightedScore)),
    avgRuntime := avgAcc (ms.map (fun d => d.runtime)),
    totalAwards := sumAcc (ms.map (fun d =>
      .val (mOrZero d.awardsWins + mOrZero d.awardsNominations))),
    topMovie := maxAcc (ms.map (fun d => d.imdbRating)),
    metacriticCount := sumAcc (ms.map (fun d => .val d.hasMetacritic)),
    tomatoesCount := sumAcc (ms.map (fun d => .val d.hasTomatoes)),
    movies := ms.map (fun d =>
      { title := d.title, year := d.year, rating := d.imdbRating,
        votes := d.imdbVotes, score := d.weightedScore }) }

/-- Stage 5 of the movie pipeline. -/
def movieGroupStage (docs : List UMovieGD) : List MovieGroupRow :=
  (groupBy movieGroupKey docs).map (fun g => movieGroupRowOf g.1 g.2)

/-- Stage 6 of the movie pipeline, on one row: keep the top 3 movies. -/
def movieSliceStage (r : MovieGroupRow) : MovieGroupRow :=
  { r with movies := sortSliceMovies r.movies }

/-! ### Listing documents (sample_airbnb.listingsAndReviews as consumed)

Fields the airbnb pipeline's claims read.  As with movies, fields whose
absence the pipeline only ever turns into a dropped document are plain;
fields tested with `$exists` or `$ne: null` are `MVal`.  Derived fields not
needed by any claim (pricePerBed, reviewQuality, valueScore,
bookingPotential, propertyScore, …) and accumulators not needed by any claim
(medianPrice, superhostCount, …) are not modelled. -/
structure Listing where
  price : MVal ℚ
  numberOfReviews : ℚ
  bedrooms : MVal ℚ
  addressMarket : MVal String
  addressCountry : MVal String
  reviewScoresRating : MVal ℚ
  propertyType : String
  roomType : String
  hostId : String
  amenities : Option (List String)
deriving DecidableEq, Repr

/-- Stage 1 of the airbnb pipeline (`$match`): at least 5 reviews, price
present and non-null, bedrooms present and ≥ 0, market, country and review
rating present. -/
def listingPassesFilter (l : Listing) : Bool :=
  decide ((5 : ℚ) ≤ l.numberOfReviews) &&
  (mExists l.price && qNeNull l.price) &&
  (mExists l.bedrooms && qGte l.bedrooms 0) &&
  mExists l.addressMarket &&
  mExists l.addressCountry &&
  mExists l.reviewScoresRating

/-- Aggregation-expression `$lte` against a constant: unlike `$match`
comparisons, aggregation comparisons use MongoDB's canonical total order in
which null and missing sort before every number. -/
def aggLe (v : MVal ℚ) (c : ℚ) : Bool :=
  match v with
  | .val x => decide (x ≤ c)
  | _ => true

/-- Aggregation-expression `$gt` against a constant (canonical order). -/
def aggGt (v : MVal ℚ) (c : ℚ) : Bool :=
  match v with
  | .val x => decide (c < x)
  | _ => false

/-- The stage 2 `priceTier` `$switch`, translated branch by branch:
price ≤ 75 → Budget, ≤ 150 → Mid-Range, ≤ 300 → Premium, > 300 → Luxury,
default Unknown. -/
def priceTierSwitch (price : MVal ℚ) : String :=
  if aggLe price 75 then "Budget"
  else if aggLe price 150 then "Mid-Range"
  else if aggLe price 300 then "Premium"
  else if aggGt price 300 then "Luxury"
  else "Unknown"

/-- `$toDouble` on the Decimal128 price, modelled as the identity on the
rational value.  MongoDB raises an error on null/missing input; the filter
guarantees a numeric price, and the unreachable case is represented by the
non-value. -/
def toDoubleM (v : MVal ℚ) : MVal ℚ :=
  match v with
  | .val q => .val q
  | _ => .vnull

/-- A listing after the stage 2/3 `$addFields` (the fields claims need). -/
structure DListing extends Listing where
  priceNumeric : MVal ℚ
  priceTier : String
deriving DecidableEq, Repr

/-- Stage 2 of the airbnb pipeline (`$addFields`), restricted to the derived
fields any claim reads. -/
def deriveListing (l : Listing) : DListing :=
  { l with
    priceNumeric := toDoubleM l.price
    priceTier := priceTierSwitch l.price }

/-- A listing after `$unwind: {path: "$amenities",
preserveNullAndEmptyArrays: true}`: the amenities field now holds a single
amenity, or nothing for a listing preserved with an empty or missing array. -/
structure UListing where
  price : MVal ℚ
  numberOfReviews : ℚ
  bedrooms : MVal ℚ
  addressMarket : MVal String
  addressCountry : MVal String
  reviewScoresRating : MVal ℚ
  propertyType : String
  roomType : String
  hostId : String
  priceNumeric : MVal ℚ
  priceTier : String
  amenities : Option String
deriving DecidableEq, Repr

/-- Stage 4 of the airbnb pipeline: `$unwind` on amenities with
`preserveNullAndEmptyArrays: true` — a listing with an empty or missing
amenities array is kept as one document with the field removed. -/
def unwindAmenities (d : DListing) : List UListing :=
  match d.amenities with
  | some (a :: rest) =>
    (a :: rest).map (fun x =>
      { price := d.price, numberOfReviews := d.numberOfReviews,
        bedrooms := d.bedrooms, addressMarket := d.addressMarket,
        addressCountry := d.addressCountry,
        reviewScoresRating := d.reviewScoresRating,
        propertyType := d.propertyType, roomType := d.roomType,
        hostId := d.hostId, priceNumeric := d.priceNumeric,
        priceTier := d.priceTier, amenities := some x })
  | _ =>
    [{ price := d.price, numberOfReviews := d.numberOfReviews,
       bedrooms := d.bedrooms, addressMarket := d.addressMarket,
       addressCountry := d.addressCountry,
       reviewScoresRating := d.reviewScoresRating,
       propertyType := d.propertyType, roomType := d.roomType,
       hostId := d.hostId, priceNumeric := d.priceNumeric,
       priceTier := d.priceTier, amenities := none }]

/-! ### Stage 5 of the airbnb pipeline (`$group` by market, country,
property type, room type, price tier) -/

/-- The stage 5 group identity of the airbnb pipeline. -/
def listingGroupKey (d : UListing) :
    MVal String × MVal String × String × String × String :=
  (d.addressMarket, d.addressCountry, d.propertyType, d.roomType, d.priceTier)

/-- One stage 5 output row of the airbnb pipeline (accumulators any claim
reads; the source's remaining accumulators use the same combinators). -/
structure ListingGroupRow where
  market : MVal String
  country : MVal String
  propertyType : String
  roomType : String
  priceTier : String
  listingCount : MVal ℚ
  uniqueHosts : List String
  avgPrice : MVal ℚ
  minPrice : MVal ℚ
  maxPrice : MVal ℚ
  avgReviewRating : MVal ℚ
  totalReviews : MVal ℚ
deriving DecidableEq, Repr

/-- Accumulator outputs of one airbnb stage 5 group.  `uniqueHosts` is the
`$addToSet` accumulator, modelled as first-occurrence deduplication. -/
def listingGroupRowOf (k : MVal String × MVal String × String × String × String)
    (ms : List UListing) : ListingGroupRow :=
  { market := k.1, country := k.2.1, propertyType := k.2.2.1,
    roomType := k.2.2.2.1, priceTier := k.2.2.2.2,
    listingCount := sumOne ms,
    uniqueHosts := (ms.map (fun d => d.hostId)).dedup,
    avgPrice := avgAcc (ms.map (fun d => d.priceNumeric)),
    minPrice := minAcc (ms.map (fun d => d.priceNumeric)),
    maxPrice := maxAcc (ms.map (fun d => d.priceNumeric)),
    avgReviewRating := avgAcc (ms.map (fun d => d.reviewScoresRating)),
    totalReviews := sumAcc (ms.map (fun d => .val d.numberOfReviews)) }

/-- Stage 5 of the airbnb pipeline. -/
def listingGroupStage (docs : List UListing) : List ListingGroupRow :=
  (groupBy listingGroupKey docs).map (fun g => listingGroupRowOf g.1 g.2)

/-- Disjunctive description of the `$avg` accumulator: null when every
contribution is absent, otherwise sum over count of the present ones. -/
theorem avgAcc_spec (vs : List (MVal ℚ)) :
    (vs.filterMap MVal.toOption = [] ∧ avgAcc vs = .vnull) ∨
    (vs.filterMap MVal.toOption ≠ [] ∧
      avgAcc vs =
        .val ((vs.filterMap MVal.toOption).sum /
          ((vs.filterMap MVal.toOption).length : ℚ))) := by
  by_cases h : vs.filterMap MVal.toOption = []
  · exact Or.inl ⟨h, by simp [avgAcc, h]⟩
  · exact Or.inr ⟨h, by simp [avgAcc, List.isEmpty_iff, h]⟩

/-- C3: in both grouping stages the counting accumulator (`movieCount` /
`listingCount`, a `$sum: 1`) equals the number of contributing
post-expansion records of the group, and each `$avg` accumulator equals the
sum of the non-absent contributing values divided by their number, the
all-absent case yielding the null (undefined) average rather than zero or a
division failure. -/
theorem claim_C3_group_count_avg :
    (∀ (docs : List UMovieGD), ∀ r ∈ movieGroupStage docs,
      r.movieCount =
        .val (((docs.filter (fun x =>
          decide (movieGroupKey x = (r.genre, r.decade, r.director)))).length : ℚ))
      ∧ (((docs.filter (fun x =>
            decide (movieGroupKey x = (r.genre, r.decade, r.director)))).filterMap
              (fun d => d.imdbRating.toOption) = []
            ∧ r.avgRating = .vnull) ∨
         ((docs.filter (fun x =>
            decide (movieGroupKey x = (r.genre, r.decade, r.director)))).filterMap
              (fun d => d.imdbRating.toOption) ≠ []
            ∧ r.avgRating =
              .val (((docs.filter (fun x =>
                  decide (movieGroupKey x = (r.genre, r.decade, r.director)))).filterMap
                    (fun d => d.imdbRating.toOption)).sum /
                (((docs.filter (fun x =>
                  decide (movieGroupKey x = (r.genre, r.decade, r.director)))).filterMap
                    (fun d => d.imdbRating.toOption)).length : ℚ)))))
    ∧ (∀ (docs : List UListing), ∀ r ∈ listingGroupStage docs,
      r.listingCount =
        .val (((docs.filter (fun x =>
          decide (listingGroupKey x =
            (r.market, r.country, r.propertyType, r.roomType, r.priceTier)))).length : ℚ))
      ∧ (((docs.filter (fun x =>
            decide (listingGroupKey x =
              (r.market, r.country, r.propertyType, r.roomType, r.priceTier)))).filterMap
              (fun d => d.priceNumeric.toOption) = []
            ∧ r.avgPrice = .vnull) ∨
         ((docs.filter (fun x =>
            decide (listingGroupKey x =
              (r.market, r.country, r.propertyType, r.roomType, r.priceTier)))).filterMap
              (fun d => d.priceNumeric.toOption) ≠ []
            ∧ r.avgPrice =
              .val (((docs.filter (fun x =>
                  decide (listingGroupKey x =
                    (r.market, r.country, r.propertyType, r.roomType, r.priceTier)))).filterMap
                    (fun d => d.priceNumeric.toOption)).sum /
                (((docs.filter (fun x =>
                  decide (listingGroupKey x =
                    (r.market, r.country, r.propertyType, r.roomType, r.priceTier)))).filterMap
                    (fun d => d.priceNumeric.toOption)).length : ℚ))))) := by
  constructor
  · intro docs r hr
    rw [movieGroupStage, List.mem_map] at hr
    obtain ⟨⟨k, ms⟩, hg, rfl⟩ := hr
    have hms : ms = docs.filter (fun x => decide (movieGroupKey x = k)) :=
      groupBy_members movieGroupKey docs (k, ms) hg
    have hkey :
        ((movieGroupRowOf k ms).genre, (movieGroupRowOf k ms).decade,
          (movieGroupRowOf k ms).director) = k := rfl
    rw [hkey, ← hms]
    constructor
    · show sumOne ms = _
      rw [sumOne_eq_length]
    · have h := avgAcc_spec (ms.map (fun d => d.imdbRating))
      rw [List.filterMap_map] at h
      exact h
  · intro docs r hr
    rw [listingGroupStage, List.mem_map] at hr
    obtain ⟨⟨k, ms⟩, hg, rfl⟩ := hr
    have hms : ms = docs.filter (fun x => decide (listingGroupKey x = k)) :=
      groupBy_members listingGroupKey docs (k, ms) hg
    have hkey :
        ((listingGroupRowOf k ms).market, (listingGroupRowOf k ms).country,
          (listingGroupRowOf k ms).propertyType,
          (listingGroupRowOf k ms).roomType,
          (listingGroupRowOf k ms).priceTier) = k := rfl
    rw [hkey, ← hms]
    constructor
    · show sumOne ms = _
      rw [sumOne_eq_length]
    · have h := avgAcc_spec (ms.map (fun d => d.priceNumeric))
      rw [List.filterMap_map] at h
      exact h

/-- A concrete post-expansion movie record for witnesses. -/
def uMovieW (r : MVal ℚ) : UMovieGD :=
  { title := "t", year := 2001, runtime := .val 100, imdbRating := r,
    imdbVotes := .val 1000, awardsWins := .absent, awardsNominations := .absent,
    metacritic := .absent, tomatoesViewerRating := .absent,
    decade := "2000s", weightedScore := .val 80, hasMetacritic := 0,
    hasTomatoes := 0, genres := "Drama", directors := "A" }

/-- Two records of the same (genre, decade, director) group. -/
def movieDocsW : List UMovieGD := [uMovieW (.val 8), uMovieW (.val 7)]

/-- Witness for C3: the group of the two concrete records counts exactly its
two contributing records. -/
theorem claim_C3_witness :
    (movieGroupRowOf ("Drama", "2000s", "A") movieDocsW).movieCount
      = .val ((movieDocsW.filter (fun x =>
          decide (movieGroupKey x = ("Drama", "2000s", "A")))).length : ℚ)
    ∧ (movieGroupRowOf ("Drama", "2000s", "A") movieDocsW).movieCount
      = .val 2 := by
  have h := (claim_C3_group_count_avg.1 movieDocsW
    (movieGroupRowOf ("Drama", "2000s", "A") movieDocsW)
    (List.mem_singleton.mpr rfl)).1
  refine ⟨h, ?_⟩
  show sumOne movieDocsW = _
  simp [sumOne, movieDocsW]
  norm_num

/-- Cross-product size of a genre expansion followed by the director
expansion, for any mapped genre record with a fixed director list. -/
theorem bind_unwindDirectors_length (f : String → UMovieG) (nd : ℕ)
    (hf : ∀ g, (f g).directors.length = nd) (gs : List String) :
    ((gs.map f).flatMap unwindDirectors).length = gs.length * nd := by
  induction gs with
  | nil => simp
  | cons g t ih =>
    simp only [List.map_cons, List.flatMap_cons, List.length_append]
    have hlen : (unwindDirectors (f g)).length = nd := by
      simp [unwindDirectors, hf g]
    rw [ih, hlen, List.length_cons]
    ring

/-- C4: expanding a movie by its genres (size m) and then by its directors
(size n) yields exactly m×n records; a document with an empty target array
yields 0 records under the movie pipeline's plain `$unwind` but exactly one
record with the field absent under the airbnb pipeline's `$unwind` with
`preserveNullAndEmptyArrays: true` — the two analyses use different
empty-policies. -/
theorem claim_C4_expansion_cross_product :
    (∀ d : DMovie,
      ((unwindGenres d).flatMap unwindDirectors).length
        = d.genres.length * d.directors.length)
    ∧ (∀ d : DMovie, d.genres = [] → unwindGenres d = [])
    ∧ (∀ l : DListing, (l.amenities = none ∨ l.amenities = some []) →
        (unwindAmenities l).length = 1
        ∧ ∀ u ∈ unwindAmenities l, u.amenities = none) := by
  refine ⟨?_, ?_, ?_⟩
  · intro d
    exact bind_unwindDirectors_length _ d.directors.length (fun g => rfl) d.genres
  · intro d h
    simp [unwindGenres, h]
  · intro l h
    rcases h with h | h <;> constructor <;> simp [unwindAmenities, h]

/-- A concrete listing passing the airbnb filter, used by witnesses. -/
def listingWitness : Listing :=
  { price := .val 100, numberOfReviews := 10, bedrooms := .val 1,
    addressMarket := .val "Porto", addressCountry := .val "Portugal",
    reviewScoresRating := .val 95, propertyType := "Apartment",
    roomType := "Entire home/apt", hostId := "h1", amenities := some ["Wifi"] }

/-- A concrete derived movie with 2 genres and 3 directors. -/
def dMovieW : DMovie :=
  deriveMovie (fun _ => 3)
    { movieWitness with
      genres := ["Drama", "Comedy"]
      directors := ["A", "B", "C"] }

/-- A concrete derived listing whose amenities array is empty. -/
def dListingEmptyAmen : DListing :=
  deriveListing { listingWitness with amenities := some [] }

/-- Witness for C4: 2 genres × 3 directors give 6 records; the
empty-amenities listing is preserved as one record with the field absent. -/
theorem claim_C4_witness :
    ((unwindGenres dMovieW).flatMap unwindDirectors).length = 2 * 3
    ∧ ((unwindAmenities dListingEmptyAmen).length = 1
        ∧ ∀ u ∈ unwindAmenities dListingEmptyAmen, u.amenities = none) := by
  constructor
  · have h1 := claim_C4_expansion_cross_product.1 dMovieW
    exact h1.trans (by decide)
  · exact claim_C4_expansion_cross_product.2.2 dListingEmptyAmen (Or.inr rfl)

/-- After the airbnb filter the price field holds a numeric value. -/
theorem listing_price_val_of_filter (l : Listing)
    (hl : listingPassesFilter l = true) : ∃ p : ℚ, l.price = .val p := by
  have hp : qNeNull l.price = true := by
    simp only [listingPassesFilter, Bool.and_eq_true] at hl
    exact hl.1.1.1.1.2.2
  rcases hpv : l.price with _ | _ | p
  · rw [hpv] at hp; simp [qNeNull, MVal.isVal] at hp
  · rw [hpv] at hp; simp [qNeNull, MVal.isVal] at hp
  · exact ⟨p, rfl⟩

/-- C5: for every listing passing the filter (price numeric), the derived
priceTier follows the piecewise thresholds ≤75 Budget, ≤150 Mid-Range,
≤300 Premium, else Luxury; in particular 50, 100, 400 map to Budget,
Mid-Range, Luxury. -/
theorem claim_C5_priceTier_thresholds :
    ∀ l : Listing, listingPassesFilter l = true →
      ∃ p : ℚ, l.price = .val p
        ∧ (deriveListing l).priceTier =
            (if p ≤ 75 then "Budget" else if p ≤ 150 then "Mid-Range"
             else if p ≤ 300 then "Premium" else "Luxury")
        ∧ priceTierSwitch (.val 50) = "Budget"
        ∧ priceTierSwitch (.val 100) = "Mid-Range"
        ∧ priceTierSwitch (.val 400) = "Luxury" := by
  intro l hl
  obtain ⟨p, hp⟩ := listing_price_val_of_filter l hl
  refine ⟨p, hp, ?_, by decide, by decide, by decide⟩
  show priceTierSwitch l.price = _
  rw [hp]
  by_cases h1 : p ≤ 75
  · simp [priceTierSwitch, aggLe, h1]
  · by_cases h2 : p ≤ 150
    · simp [priceTierSwitch, aggLe, h1, h2]
    · by_cases h3 : p ≤ 300
      · simp [priceTierSwitch, aggLe, h1, h2, h3]
      · simp [priceTierSwitch, aggLe, aggGt, h1, h2, h3, not_le.mp h3]

/-- Witness for C5: the 100-priced listing lands in Mid-Range. -/
theorem claim_C5_witness :
    (deriveListing listingWitness).priceTier = "Mid-Range" := by
  obtain ⟨p, hp, htier, -, -, -⟩ :=
    claim_C5_priceTier_thresholds listingWitness (by decide)
  have hval : MVal.val (100 : ℚ) = MVal.val p := hp
  have hp100 : (100 : ℚ) = p := by injection hval
  rw [htier, ← hp100]
  norm_num

/-- C9: the `priceTier` `$switch` carries a default branch producing
"Unknown", but it is unreachable: under the filter precondition the price is
numeric and the branch conditions cover all numbers, so every document
reaching the derive stage receives one of the four tiers (indeed the default
is unreachable for every numeric price). -/
theorem claim_C9_priceTier_default_unreachable :
    ∀ l : Listing, listingPassesFilter l = true →
      (deriveListing l).priceTier ≠ "Unknown"
      ∧ (deriveListing l).priceTier ∈ ["Budget", "Mid-Range", "Premium", "Luxury"]
      ∧ (∀ q : ℚ, priceTierSwitch (.val q) ≠ "Unknown") := by
  have hq : ∀ q : ℚ,
      priceTierSwitch (.val q) ∈ ["Budget", "Mid-Range", "Premium", "Luxury"] := by
    intro q
    by_cases h1 : q ≤ 75
    · simp [priceTierSwitch, aggLe, h1]
    · by_cases h2 : q ≤ 150
      · simp [priceTierSwitch, aggLe, h1, h2]
      · by_cases h3 : q ≤ 300
        · simp [priceTierSwitch, aggLe, h1, h2, h3]
        · simp [priceTierSwitch, aggLe, aggGt, h1, h2, h3, not_le.mp h3]
  intro l hl
  obtain ⟨p, hp⟩ := listing_price_val_of_filter l hl
  have htier : (deriveListing l).priceTier = priceTierSwitch (.val p) := by
    show priceTierSwitch l.price = _
    rw [hp]
  refine ⟨?_, ?_, fun q hcon => ?_⟩
  · rw [htier]
    intro hcon
    have hmem := hq p
    rw [hcon] at hmem
    exact absurd hmem (by decide)
  · rw [htier]
    exact hq p
  · have hmem := hq q
    rw [hcon] at hmem
    exact absurd hmem (by decide)

/-- Witness for C9 at the concrete listing. -/
theorem claim_C9_witness :
    (deriveListing listingWitness).priceTier ≠ "Unknown"
    ∧ (deriveListing listingWitness).priceTier
        ∈ ["Budget", "Mid-Range", "Premium", "Luxury"] := by
  have h := claim_C9_priceTier_default_unreachable listingWitness (by decide)
  exact ⟨h.1, h.2.1⟩

/-! ### Faceted execution (`$facet`)

Modelled from the spec: the faceted executor is MongoDB's and is not in the
repository.  Per the spec, each named sub-pipeline runs independently over
the same read-only input; a sub-pipeline either yields a result sequence or
a computation error, and a failing facet leaves its error in its own slot
while the siblings still complete. -/

/-- Modelled from the spec: run every facet's sub-pipeline independently over
the same input, pairing each facet name with its sub-pipeline's outcome. -/
def runFacets {δ ρ ε : Type}
    (facets : List (String × (List δ → Except ε (List ρ))))
    (input : List δ) : List (String × Except ε (List ρ)) :=
  facets.map (fun f => (f.1, f.2 input))

/-- C6: if one facet's sub-pipeline raises a computation error, its slot in
the output mapping holds that surfaced error, every sibling facet whose
sub-pipeline succeeds still has its normal result in its own slot, and the
run is not aborted — the output carries a slot for every facet. -/
theorem claim_C6_facet_error_isolation :
    ∀ {δ ρ ε : Type} (facets : List (String × (List δ → Except ε (List ρ))))
      (input : List δ) (nm : String) (p : List δ → Except ε (List ρ)) (e : ε),
      (nm, p) ∈ facets → p input = .error e →
        ((nm, Except.error e) ∈ runFacets facets input
        ∧ (∀ (nm' : String) (p' : List δ → Except ε (List ρ)) (rs : List ρ),
            (nm', p') ∈ facets → p' input = .ok rs →
              (nm', Except.ok rs) ∈ runFacets facets input)
        ∧ (runFacets facets input).map Prod.fst = facets.map Prod.fst) := by
  intro δ ρ ε facets input nm p e hmem herr
  refine ⟨?_, ?_, ?_⟩
  · have hmem2 : (nm, p input) ∈ runFacets facets input :=
      List.mem_map_of_mem (fun f => (f.1, f.2 input)) hmem
    rw [herr] at hmem2
    exact hmem2
  · intro nm' p' rs hmem' hok
    have hmem2 : (nm', p' input) ∈ runFacets facets input :=
      List.mem_map_of_mem (fun f => (f.1, f.2 input)) hmem'
    rw [hok] at hmem2
    exact hmem2
  · simp [runFacets]

/-- Concrete sub-pipeline returning its input. -/
def facetOkW : List ℚ → Except String (List ℚ) := fun l => .ok l

/-- Concrete failing sub-pipeline. -/
def facetErrW : List ℚ → Except String (List ℚ) := fun _ => .error "boom"

/-- A facet configuration in which exactly one facet fails. -/
def facetsW : List (String × (List ℚ → Except String (List ℚ))) :=
  [("genreStatistics", facetErrW), ("decadeTrends", facetOkW)]

/-- Witness for C6: the failing facet's slot holds the error and the sibling
still produces its result. -/
theorem claim_C6_witness :
    ("genreStatistics", (Except.error "boom" : Except String (List ℚ)))
        ∈ runFacets facetsW [1, 2]
    ∧ ("decadeTrends", (Except.ok [(1 : ℚ), 2] : Except String (List ℚ)))
        ∈ runFacets facetsW [1, 2]
    ∧ (runFacets facetsW [1, 2]).map Prod.fst = facetsW.map Prod.fst := by
  have h := claim_C6_facet_error_isolation facetsW [1, 2] "genreStatistics"
    facetErrW "boom" (List.mem_cons_self _ _) rfl
  exact ⟨h.1,
    h.2.1 "decadeTrends" facetOkW [1, 2]
      (List.mem_cons_of_mem _ (List.mem_cons_self _ _)) rfl,
    h.2.2⟩

theorem lookup_runFacets {δ ρ ε : Type}
    (facets : List (String × (List δ → Except ε (List ρ))))
    (input : List δ) (k : String) :
    (runFacets facets input).lookup k =
      (facets.lookup k).map (fun p => p input) := by
  induction facets with
  | nil => simp [runFacets]
  | cons f rest ih =>
    simp only [runFacets, List.map_cons, List.lookup]
    by_cases hk : k == f.1
    · simp [hk]
    · simp only [hk]
      simpa [runFacets] using ih

/-- C8: facets are independent — two facet configurations assigning the same
sub-pipeline to name k produce identical results for k on the same input,
whatever the sibling facets are. -/
theorem claim_C8_facet_independence :
    ∀ {δ ρ ε : Type}
      (facets₁ facets₂ : List (String × (List δ → Except ε (List ρ))))
      (input : List δ) (k : String) (p : List δ → Except ε (List ρ)),
      facets₁.lookup k = some p → facets₂.lookup k = some p →
      (runFacets facets₁ input).lookup k = (runFacets facets₂ input).lookup k := by
  intro δ ρ ε facets₁ facets₂ input k p h1 h2
  rw [lookup_runFacets, lookup_runFacets, h1, h2]

/-- A sibling-mutated variant of `facetsW` keeping the first facet intact. -/
def facetsW2 : List (String × (List ℚ → Except String (List ℚ))) :=
  [("genreStatistics", facetErrW), ("decadeTrends", facetErrW),
   ("extra", facetOkW)]

/-- Witness for C8: mutating the sibling facets leaves the shared facet's
result unchanged. -/
theorem claim_C8_witness :
    (runFacets facetsW [1, 2]).lookup "genreStatistics" =
      (runFacets facetsW2 [1, 2]).lookup "genreStatistics" :=
  claim_C8_facet_independence facetsW facetsW2 [1, 2] "genreStatistics"
    facetErrW rfl rfl

/-! ### Stage 7/8 of the movie pipeline (regroup by genre, decade) -/

/-- The stage 7 group identity: `{genre: "$_id.genre", decade: "$_id.decade"}`. -/
def movieGroupKey2 (r : MovieGroupRow) : String × String := (r.genre, r.decade)

/-- One stage 7 output row of the movie pipeline. -/
structure MovieGroupRow2 where
  genre : String
  decade : String
  totalMovies : MVal ℚ
  uniqueDirectors : MVal ℚ
  avgRating : MVal ℚ
  avgVotes : MVal ℚ
  avgWeightedScore : MVal ℚ
  avgRuntime : MVal ℚ
  totalAwards : MVal ℚ
  topRatedMovie : MVal ℚ
  metacriticCoverage : MVal ℚ
  tomatoesCoverage : MVal ℚ
  topDirectors : List DirectorEntry
deriving DecidableEq, Repr

/-- Accumulator outputs of one stage 7 group. -/
def movieGroupRow2Of (k : String × String) (ms : List MovieGroupRow) :
    MovieGroupRow2 :=
  { genre := k.1, decade := k.2,
    totalMovies := sumAcc (ms.map (fun r => r.movieCount)),
    uniqueDirectors := sumOne ms,
    avgRating := avgAcc (ms.map (fun r => r.avgRating)),
    avgVotes := avgAcc (ms.map (fun r => r.avgVotes)),
    avgWeightedScore := avgAcc (ms.map (fun r => r.avgWeightedScore)),
    avgRuntime := avgAcc (ms.map (fun r => r.avgRuntime)),
    totalAwards := sumAcc (ms.map (fun r => r.totalAwards)),
    topRatedMovie := maxAcc (ms.map (fun r => r.topMovie)),
    metacriticCoverage := sumAcc (ms.map (fun r => r.metacriticCount)),
    tomatoesCoverage := sumAcc (ms.map (fun r => r.tomatoesCount)),
    topDirectors := ms.map (fun r =>
      { director := r.director, movieCount := r.movieCount,
        avgRating := r.avgRating, totalAwards := r.totalAwards,
        topMovies := r.movies }) }

/-- Stage 7 of the movie pipeline. -/
def movieGroupStage2 (rows : List MovieGroupRow) : List MovieGroupRow2 :=
  (groupBy movieGroupKey2 rows).map (fun g => movieGroupRow2Of g.1 g.2)

/-- A row after stage 8 adds `coverageScore`. -/
structure MovieGroupRow3 extends MovieGroupRow2 where
  coverageScore : MVal ℚ
deriving DecidableEq, Repr

/-- Stage 8 of the movie pipeline: keep the top 5 directors and derive
`coverageScore = (metacriticCoverage + tomatoesCoverage) / (totalMovies × 2)`. -/
def movieStage8 (r : MovieGroupRow2) : MovieGroupRow3 :=
  { toMovieGroupRow2 :=
      { r with topDirectors := sortSliceDirectors r.topDirectors }
    coverageScore :=
      mDiv (mAdd [r.metacriticCoverage, r.tomatoesCoverage])
        (mMul [r.totalMovies, .val 2]) }

/-! ### Stage 9/10 of the movie pipeline (`$facet` and the summary)

Modelled from the spec: `$facet` consumes its whole input and emits exactly
one document holding the named result arrays; the four sub-pipelines are
parameters here, since no claim depends on their interior stages. -/

/-- The single document emitted by the movie `$facet` stage: one named,
ordered result array per facet. -/
structure MovieFacetResult (α β γ σ : Type) where
  topGenresByDecade : List α
  genreStatistics : List β
  decadeTrends : List γ
  premiumContent : List σ

/-- The stage 10 summary: `$size` of three facet arrays plus the analysis
date (`new Date()`, passed in as `now`). -/
structure MovieSummary where
  totalDecades : ℕ
  totalGenres : ℕ
  analysisDate : ℕ
  premiumContentCount : ℕ
deriving DecidableEq, Repr

/-- The one output document of the movie pipeline. -/
structure MovieOutput (α β γ σ : Type) where
  topGenresByDecade : List α
  genreStatistics : List β
  decadeTrends : List γ
  premiumContent : List σ
  summary : MovieSummary

/-- Stage 9 of the movie pipeline: run the four sub-pipelines over the same
grouped input and emit one document of named arrays. -/
def movieFacetStage {α β γ σ : Type}
    (f1 : List MovieGroupRow3 → List α) (f2 : List MovieGroupRow3 → List β)
    (f3 : List MovieGroupRow3 → List γ) (f4 : List MovieGroupRow3 → List σ)
    (rows : List MovieGroupRow3) : MovieFacetResult α β γ σ :=
  ⟨f1 rows, f2 rows, f3 rows, f4 rows⟩

/-- Stage 10 of the movie pipeline (`$addFields: summary`). -/
def movieAddSummary {α β γ σ : Type} (now : ℕ)
    (x : MovieFacetResult α β γ σ) : MovieOutput α β γ σ :=
  { topGenresByDecade := x.topGenresByDecade
    genreStatistics := x.genreStatistics
    decadeTrends := x.decadeTrends
    premiumContent := x.premiumContent
    summary :=
      { totalDecades := x.decadeTrends.length
        totalGenres := x.genreStatistics.length
        analysisDate := now
        premiumContentCount := x.premiumContent.length } }

/-- The movie pipeline end to end (stages 1–10). -/
def moviePipeline {α β γ σ : Type} (lg : ℚ → ℚ)
    (f1 : List MovieGroupRow3 → List α) (f2 : List MovieGroupRow3 → List β)
    (f3 : List MovieGroupRow3 → List γ) (f4 : List MovieGroupRow3 → List σ)
    (docs : List Movie) (now : ℕ) : List (MovieOutput α β γ σ) :=
  let filtered := docs.filter moviePassesFilter
  let derived := filtered.map (deriveMovie lg)
  let unwound := (derived.flatMap unwindGenres).flatMap unwindDirectors
  let grouped := (movieGroupStage unwound).map movieSliceStage
  let grouped2 := (movieGroupStage2 grouped).map movieStage8
  [movieAddSummary now (movieFacetStage f1 f2 f3 f4 grouped2)]

/-! ### Stage 6–10 of the airbnb pipeline

Stage 6's amenity-frequency rewrite and stage 8's ranking fields
(`competitivenessScore`, `marketPQRatio`, segment sort) are not read by any
claim and are not modelled; stage 6 contributes the `uniqueHostCount` that
stage 7 sums. -/

/-- A row after stage 6 adds `uniqueHostCount` (`$size: "$uniqueHosts"`). -/
structure ListingGroupRow2 extends ListingGroupRow where
  uniqueHostCount : MVal ℚ
deriving DecidableEq, Repr

/-- Stage 6 of the airbnb pipeline (the field any claim or later stage
reads). -/
def listingStage6 (r : ListingGroupRow) : ListingGroupRow2 :=
  { toListingGroupRow := r
    uniqueHostCount := .val (r.uniqueHosts.length : ℚ) }

/-- The stage 7 group identity: `{market: "$_id.market",
country: "$_id.country"}`. -/
def marketKey (r : ListingGroupRow2) : MVal String × MVal String :=
  (r.market, r.country)

/-- One stage 7 output row of the airbnb pipeline (accumulators any claim or
the summary reads). -/
structure MarketRow where
  market : MVal String
  country : MVal String
  totalListings : MVal ℚ
  totalHosts : MVal ℚ
  totalReviews : MVal ℚ
  marketAvgPrice : MVal ℚ
  marketMinPrice : MVal ℚ
  marketMaxPrice : MVal ℚ
  propertyTypesOffered : MVal ℚ
  avgMarketRating : MVal ℚ
deriving DecidableEq, Repr

/-- Accumulator outputs of one stage 7 market group. -/
def marketRowOf (k : MVal String × MVal String) (ms : List ListingGroupRow2) :
    MarketRow :=
  { market := k.1, country := k.2,
    totalListings := sumAcc (ms.map (fun r => r.listingCount)),
    totalHosts := sumAcc (ms.map (fun r => r.uniqueHostCount)),
    totalReviews := sumAcc (ms.map (fun r => r.totalReviews)),
    marketAvgPrice := avgAcc (ms.map (fun r => r.avgPrice)),
    marketMinPrice := minAcc (ms.map (fun r => r.minPrice)),
    marketMaxPrice := maxAcc (ms.map (fun r => r.maxPrice)),
    propertyTypesOffered := sumOne ms,
    avgMarketRating := avgAcc (ms.map (fun r => r.avgReviewRating)) }

/-- Stage 7 of the airbnb pipeline. -/
def listingGroupStage2 (rows : List ListingGroupRow2) : List MarketRow :=
  (groupBy marketKey rows).map (fun g => marketRowOf g.1 g.2)

/-- The stage 10 metadata: timestamp plus the three constant count fields of
the source. -/
structure AirbnbMetadata where
  timestamp : ℕ
  pipelineStages : ℕ
  facetsAnalyzed : ℕ
  metricsCalculated : ℕ
deriving DecidableEq, Repr

/-- The one output document of the airbnb pipeline: six named facet arrays
plus the metadata summary. -/
structure AirbnbOutput (t1 t2 t3 t4 t5 t6 : Type) where
  topMarkets : List t1
  bestValueMarkets : List t2
  premiumMarkets : List t3
  opportunityMarkets : List t4
  propertyAnalysis : List t5
  globalStats : List t6
  analysisMetadata : AirbnbMetadata

/-- Stages 9–10 of the airbnb pipeline: the `$facet` document (six
sub-pipelines as parameters, as for the movies) with the stage 10 metadata. -/
def airbnbFacetAndMetadata {t1 t2 t3 t4 t5 t6 : Type} (now : ℕ)
    (g1 : List MarketRow → List t1) (g2 : List MarketRow → List t2)
    (g3 : List MarketRow → List t3) (g4 : List MarketRow → List t4)
    (g5 : List MarketRow → List t5) (g6 : List MarketRow → List t6)
    (rows : List MarketRow) : AirbnbOutput t1 t2 t3 t4 t5 t6 :=
  { topMarkets := g1 rows
    bestValueMarkets := g2 rows
    premiumMarkets := g3 rows
    opportunityMarkets := g4 rows
    propertyAnalysis := g5 rows
    globalStats := g6 rows
    analysisMetadata :=
      { timestamp := now, pipelineStages := 10, facetsAnalyzed := 6,
        metricsCalculated := 50 } }

/-- The airbnb pipeline end to end (stages 1–10; stage 8's unread ranking
fields pass through). -/
def airbnbPipeline {t1 t2 t3 t4 t5 t6 : Type}
    (g1 : List MarketRow → List t1) (g2 : List MarketRow → List t2)
    (g3 : List MarketRow → List t3) (g4 : List MarketRow → List t4)
    (g5 : List MarketRow → List t5) (g6 : List MarketRow → List t6)
    (docs : List Listing) (now : ℕ) : List (AirbnbOutput t1 t2 t3 t4 t5 t6) :=
  let filtered := docs.filter listingPassesFilter
  let derived := filtered.map deriveListing
  let unwound := derived.flatMap unwindAmenities
  let grouped := (listingGroupStage unwound).map listingStage6
  let markets := listingGroupStage2 grouped
  [airbnbFacetAndMetadata now g1 g2 g3 g4 g5 g6 markets]

/-- C7: each pipeline run produces exactly one output document, shaped as
one ordered result array per facet name plus a summary mapping holding count
fields and the timestamp — for the movie pipeline the counts are the sizes
of the decadeTrends, genreStatistics and premiumContent arrays, for the
airbnb pipeline the constant stage/facet/metric counts. -/
theorem claim_C7_single_output_with_summary :
    (∀ {α β γ σ : Type} (lg : ℚ → ℚ)
      (f1 : List MovieGroupRow3 → List α) (f2 : List MovieGroupRow3 → List β)
      (f3 : List MovieGroupRow3 → List γ) (f4 : List MovieGroupRow3 → List σ)
      (docs : List Movie) (now : ℕ),
      (moviePipeline lg f1 f2 f3 f4 docs now).length = 1
      ∧ ∀ out ∈ moviePipeline lg f1 f2 f3 f4 docs now,
          out.summary.totalDecades = out.decadeTrends.length
          ∧ out.summary.totalGenres = out.genreStatistics.length
          ∧ out.summary.premiumContentCount = out.premiumContent.length
          ∧ out.summary.analysisDate = now)
    ∧ (∀ {t1 t2 t3 t4 t5 t6 : Type}
      (g1 : List MarketRow → List t1) (g2 : List MarketRow → List t2)
      (g3 : List MarketRow → List t3) (g4 : List MarketRow → List t4)
      (g5 : List MarketRow → List t5) (g6 : List MarketRow → List t6)
      (docs : List Listing) (now : ℕ),
      (airbnbPipeline g1 g2 g3 g4 g5 g6 docs now).length = 1
      ∧ ∀ out ∈ airbnbPipeline g1 g2 g3 g4 g5 g6 docs now,
          out.analysisMetadata =
            { timestamp := now, pipelineStages := 10, facetsAnalyzed := 6,
              metricsCalculated := 50 }) := by
  constructor
  · intro α β γ σ lg f1 f2 f3 f4 docs now
    refine ⟨rfl, ?_⟩
    intro out hout
    have hout1 : out = movieAddSummary now (movieFacetStage f1 f2 f3 f4
        ((movieGroupStage2 ((movieGroupStage
          ((((docs.filter moviePassesFilter).map (deriveMovie lg)).flatMap
            unwindGenres).flatMap unwindDirectors)).map movieSliceStage)).map
          movieStage8)) :=
      List.mem_singleton.mp hout
    subst hout1
    exact ⟨rfl, rfl, rfl, rfl⟩
  · intro t1 t2 t3 t4 t5 t6 g1 g2 g3 g4 g5 g6 docs now
    refine ⟨rfl, ?_⟩
    intro out hout
    have hout1 : out = airbnbFacetAndMetadata now g1 g2 g3 g4 g5 g6
        (listingGroupStage2 ((listingGroupStage
          (((docs.filter listingPassesFilter).map deriveListing).flatMap
            unwindAmenities)).map listingStage6)) :=
      List.mem_singleton.mp hout
    subst hout1
    exact rfl

/-- Witness for C7: both pipelines at concrete inputs, sub-pipelines and
timestamp. -/
theorem claim_C7_witness :
    (moviePipeline (fun _ => 3) (fun _ => ([] : List ℕ)) (fun r => r)
      (fun r => r) (fun _ => ([] : List ℕ)) [movieWitness] 42).length = 1
    ∧ (airbnbPipeline (fun r => r) (fun r => r) (fun r => r) (fun r => r)
        (fun r => r) (fun _ => ([] : List ℕ)) [listingWitness] 42).length = 1
    ∧ ∀ out ∈ airbnbPipeline (fun r => r) (fun r => r) (fun r => r)
        (fun r => r) (fun r => r) (fun _ => ([] : List ℕ)) [listingWitness] 42,
        out.analysisMetadata =
          { timestamp := 42, pipelineStages := 10, facetsAnalyzed := 6,
            metricsCalculated := 50 } := by
  have hm := claim_C7_single_output_with_summary.1 (fun _ => 3)
    (fun _ => ([] : List ℕ)) (fun r => r) (fun r => r)
    (fun _ => ([] : List ℕ)) [movieWitness] 42
  have ha := claim_C7_single_output_with_summary.2 (fun r => r) (fun r => r)
    (fun r => r) (fun r => r) (fun r => r) (fun _ => ([] : List ℕ))
    [listingWitness] 42
  exact ⟨hm.1, ha.1, ha.2⟩
